import Mathlib

/-!
Shallow embedding of the community_sensor node's core:
the particulate frame decoder (src/code/sensors/pms.py), the SO2 gas
reader (src/code/sensors/so2.py), and the PMS pair-agreement section of
the collection loop (src/code/collect_data.py, lines 70-361).

Conventions:
* Python floats are modelled as rationals (all constants involved are
  exactly representable and the claims are order/equality comparisons).
* Bytes read from a transport are natural numbers (< 256 where a claim
  needs it).
* A raised exception inside a read path is modelled as an explicit
  transport outcome (`raise`), since the decoders catch every exception
  and turn it into a status value.
* Row cells are either strings (status strings, the "NODATA" sentinel)
  or numbers, mirroring the Python dict that mixes both.
-/

namespace CommunitySensor

/-- Constants from collect_data.py lines 70-72. -/
def BASELINE_N : Nat := 30

def MIN_PM : ℚ := 1

def RPD_OK : ℚ := 1/4

/-- Translation of `rpd` (collect_data.py lines 75-91):
relative percent difference, `None` when the mean is not positive. -/
def rpd (a b : ℚ) : Option ℚ :=
  let m := (1/2 : ℚ) * (a + b)
  if m ≤ 0 then none else some (|a - b| / m)

/-- Translation of `median` (collect_data.py lines 93-108): sort the
list; middle element for odd length, average of the two middle elements
for even length, `None` for the empty list. -/
def median (xs : List ℚ) : Option ℚ :=
  let s := List.insertionSort (· ≤ ·) xs
  let n := s.length
  if n = 0 then none
  else if n % 2 = 1 then some (s.getD (n / 2) 0)
  else some ((1/2 : ℚ) * (s.getD (n / 2 - 1) 0 + s.getD (n / 2) 0))

/-- Append to a `deque(maxlen=BASELINE_N)` (collect_data.py lines
126-127): append on the right, evicting from the left whatever exceeds
the bound. -/
def dequeAppend (h : List ℚ) (v : ℚ) : List ℚ :=
  let h2 := h ++ [v]
  h2.drop (h2.length - BASELINE_N)

/-- Big-endian 16-bit word, as produced by `struct.unpack(">H", ...)`
on two bytes. -/
def beWord (hi lo : ℕ) : ℕ := hi * 256 + lo

/-- Result dict of `PMSReader._read_frame` (pms.py lines 64-68). -/
structure PmsSample where
  pm1 : ℕ
  pm25 : ℕ
  pm10 : ℕ
deriving DecidableEq, Repr

/-- Sync loop of `PMSReader._read_frame` (pms.py lines 39-45): consume
bytes until 0x42 immediately followed by 0x4D; return the remainder of
the stream, or `None` when the stream runs out.  A byte read while
checking for 0x4D is consumed even when it is not 0x4D. -/
def syncScan : List ℕ → Option (List ℕ)
  | [] => none
  | b :: rest =>
    if b = 0x42 then
      match rest with
      | [] => none
      | c :: rest2 => if c = 0x4D then some rest2 else syncScan rest2
    else syncScan rest

/-- Translation of `PMSReader._read_frame` (pms.py lines 34-68) over an
explicit byte stream: sync to 0x42 0x4D, read 30 bytes, check the
big-endian length field equals 28, check the checksum
`(0x42 + 0x4D + sum(body[0..28])) mod 2^16` against the trailing
big-endian word, then return words 3, 4, 5 of the thirteen big-endian
words after the length field. -/
def read_frame (stream : List ℕ) : Option PmsSample :=
  match syncScan stream with
  | none => none
  | some rest0 =>
    let rest := rest0.take 30
    if rest.length ≠ 30 then none
    else
      let lengthField := beWord (rest.getD 0 0) (rest.getD 1 0)
      if lengthField ≠ 28 then none
      else
        let data_bytes := rest.take (rest.length - 2)
        let checksum_recv :=
          beWord (rest.getD (rest.length - 2) 0) (rest.getD (rest.length - 1) 0)
        let checksum_calc := (0x42 + 0x4D + data_bytes.sum) % 65536
        if checksum_calc ≠ checksum_recv then none
        else
          some { pm1 := beWord (rest.getD 8 0) (rest.getD 9 0)
                 pm25 := beWord (rest.getD 10 0) (rest.getD 11 0)
                 pm10 := beWord (rest.getD 12 0) (rest.getD 13 0) }

/-- Transport outcome seen by `PMSReader.read` (pms.py lines 70-75):
either the serial port delivers a byte stream, or something in the read
path raises. -/
inductive PmsTransport
  | stream (bytes : List ℕ)
  | raised
deriving DecidableEq

/-- Translation of `PMSReader.read` (pms.py lines 70-75): call
`_read_frame`, catching any exception and returning `None`. -/
def PMSReader_read : PmsTransport → Option PmsSample
  | .stream bs => read_frame bs
  | .raised => none

/-! SO2 gas reader (src/code/sensors/so2.py). -/

/-- Constant from so2.py line 47. -/
def MIN_READ_INTERVAL_S : ℚ := 1

/-- Mutable module state of so2.py: the `_last_read_monotonic`
timestamp (line 48).  The bus handle and address are configured at
startup and never change afterwards, so they are not part of the
per-call state. -/
structure So2State where
  lastRead : ℚ
deriving DecidableEq, Repr

/-- Outcome of `_bus.read_i2c_block_data(_addr, 0x00, 8)` for one call:
the bus either delivers a list of byte values or raises. -/
inductive BusOutcome
  | bytes (data : List ℕ)
  | raised
deriving DecidableEq

/-- Result dict of `read_so2` (so2.py lines 116-123): `none` models the
"NODATA" string placed in the numeric columns. -/
structure So2Result where
  so2_ppm : Option ℚ
  so2_raw : Option ℕ
  so2_byte0 : Option ℕ
  so2_byte1 : Option ℕ
  so2_error : String
  so2_status : String
deriving DecidableEq, Repr

/-- Translation of `_read8_from_reg0` (so2.py lines 59-71): return the
block when it is non-empty and has exactly 8 bytes, else `None`. -/
def read8_from_reg0 (data : List ℕ) : Option (List ℕ) :=
  if data ≠ [] ∧ data.length = 8 then some data else none

/-- Translation of `_parse_frame` (so2.py lines 74-104): need at least
6 bytes, byte 0 = 0xFF, byte 1 ∈ {0x86, 0x78}; raw = (byte2 << 8) |
byte3; scale selected by byte 5 via {0 ↦ 1.0, 1 ↦ 0.1, 2 ↦ 0.01},
default 1.0; ppm = raw * scale. -/
def parse_frame (data : List ℕ) : Option (ℚ × ℕ × ℕ × ℕ) :=
  if data.length < 6 then none
  else if data.getD 0 0 ≠ 0xFF then none
  else if data.getD 1 0 ≠ 0x86 ∧ data.getD 1 0 ≠ 0x78 then none
  else
    let b0 := data.getD 2 0
    let b1 := data.getD 3 0
    let raw := Nat.lor (Nat.shiftLeft b0 8) b1
    let dec := data.getD 5 0
    let scale : ℚ := if dec = 0 then 1 else if dec = 1 then 1/10 else if dec = 2 then 1/100 else 1
    some ((raw : ℚ) * scale, raw, b0, b1)

/-- Default result dict of `read_so2` before any field is overwritten
(so2.py lines 116-123). -/
def so2Default : So2Result :=
  { so2_ppm := none, so2_raw := none, so2_byte0 := none, so2_byte1 := none
    so2_error := "OK", so2_status := "ok" }

/-- Translation of `read_so2` (so2.py lines 107-158).  `now` is the
value of `time.monotonic()` for this call; `bus` is what the I2C block
read would produce.  Note the timestamp is written (line 134) before
the `try` block, i.e. on every non-rate-limited call whether or not the
read then succeeds. -/
def read_so2 (now : ℚ) (bus : BusOutcome) (st : So2State) : So2Result × So2State :=
  if now - st.lastRead < MIN_READ_INTERVAL_S then
    ({ so2Default with so2_status := "error", so2_error := "RATE_LIMIT" }, st)
  else
    let st2 : So2State := { lastRead := now }
    match bus with
    | .raised =>
      ({ so2Default with so2_status := "error", so2_error := "exception" }, st2)
    | .bytes data =>
      match read8_from_reg0 data with
      | none =>
        ({ so2Default with so2_status := "error", so2_error := "NO_FRAME" }, st2)
      | some d =>
        match parse_frame d with
        | none =>
          ({ so2Default with so2_status := "error", so2_error := "BAD_FRAME" }, st2)
        | some (ppm, raw, b0, b1) =>
          ({ so2_ppm := some ppm, so2_raw := some raw, so2_byte0 := some b0
             so2_byte1 := some b1, so2_error := "OK", so2_status := "ok" }, st2)

/-! PMS pair diagnostics, collect_data.py lines 273-361. -/

/-- Output of the pair-diagnostic section for one tick: the four
agreement row fields (`none` models the "NODATA" sentinel for the two
numeric ones) and the two rolling baselines after this tick's update. -/
structure PairResult where
  mean : Option ℚ
  rpdVal : Option ℚ
  pairFlag : String
  suspect : String
  hist1 : List ℚ
  hist2 : List ℚ
deriving DecidableEq, Repr

/-- Translation of collect_data.py lines 273-361 with the row plumbing
made explicit: inputs are `row.get("pms1_status", "")`,
`row.get("pms2_status", "")`, `row.get("pm25_atm_pms1")`,
`row.get("pm25_atm_pms2")` and the two rolling baselines; outputs are
the four agreement fields and the updated baselines.

The fields start at the "NODATA" sentinel (lines 273-276), the
baselines are updated first (lines 287-297), then the status-first
decision runs (lines 301-357), and last the fix-up of lines 359-361
sets `suspect` to "OK" only when it is the empty string.  The `except`
branch of lines 351-353 is unreachable here because the PM cells are
numeric by construction (the reader dicts hold machine integers), so it
has no counterpart. -/
def pairDiag (st1 st2 : String) (pm1 pm2 : Option ℚ) (h1 h2 : List ℚ) :
    PairResult :=
  let h1u := match pm1 with
    | some v => if st1 = "ok" then dequeAppend h1 v else h1
    | none => h1
  let h2u := match pm2 with
    | some v => if st2 = "ok" then dequeAppend h2 v else h2
    | none => h2
  let r : PairResult :=
    if st1 ≠ "ok" ∧ st2 ≠ "ok" then
      { mean := none, rpdVal := none, pairFlag := "BOTH_BAD", suspect := "BOTH"
        hist1 := h1u, hist2 := h2u }
    else if st1 ≠ "ok" then
      { mean := none, rpdVal := none, pairFlag := "PMS1_BAD", suspect := "PMS1"
        hist1 := h1u, hist2 := h2u }
    else if st2 ≠ "ok" then
      { mean := none, rpdVal := none, pairFlag := "PMS2_BAD", suspect := "PMS2"
        hist1 := h1u, hist2 := h2u }
    else
      match pm1, pm2 with
      | some v1, some v2 =>
        let mean_pm := (1/2 : ℚ) * (v1 + v2)
        if mean_pm ≥ MIN_PM then
          let d := rpd v1 v2
          let dOk : Bool := match d with
            | some dv => decide (dv ≤ RPD_OK)
            | none => false
          if dOk then
            { mean := some mean_pm, rpdVal := d, pairFlag := "OK"
              suspect := "NODATA", hist1 := h1u, hist2 := h2u }
          else
            let b1 := median h1u
            let b2 := median h2u
            let dev1 : ℚ := match b1 with
              | some m => |v1 - m| / max m MIN_PM
              | none => 0
            let dev2 : ℚ := match b2 with
              | some m => |v2 - m| / max m MIN_PM
              | none => 0
            let susp := if dev1 > dev2 * (3/2 : ℚ) then "PMS1"
                        else if dev2 > dev1 * (3/2 : ℚ) then "PMS2"
                        else "BOTH"
            { mean := some mean_pm, rpdVal := d, pairFlag := "MISMATCH"
              suspect := susp, hist1 := h1u, hist2 := h2u }
        else
          { mean := some mean_pm, rpdVal := none, pairFlag := "LOW_PM_OK"
            suspect := "NODATA", hist1 := h1u, hist2 := h2u }
      | _, _ =>
        { mean := none, rpdVal := none, pairFlag := "INCOMPLETE"
          suspect := "UNKNOWN", hist1 := h1u, hist2 := h2u }
  let suspectFixed :=
    if r.suspect = "" ∧ (r.pairFlag = "OK" ∨ r.pairFlag = "LOW_PM_OK") then "OK"
    else r.suspect
  { r with suspect := suspectFixed }

/-! Row model for the orchestrator (collect_data.py `main`). -/

/-- Row cell: the Python dict mixes status/sentinel strings with
numeric values in the same columns. -/
inductive Cell
  | str (s : String)
  | num (q : ℚ)
deriving DecidableEq, Repr

/-- Dict assignment `row[k] = v`: overwrite the key when present, else
add it. -/
def rowSet (r : List (String × Cell)) (k : String) (v : Cell) :
    List (String × Cell) :=
  match r with
  | [] => [(k, v)]
  | (k2, v2) :: rest =>
    if k2 = k then (k, v) :: rest else (k2, v2) :: rowSet rest k v

/-- Dict lookup `row.get(k)`. -/
def rowGet (r : List (String × Cell)) (k : String) : Option Cell :=
  match r with
  | [] => none
  | (k2, v2) :: rest => if k2 = k then some v2 else rowGet rest k

/-- Outcome of one `pms_reader.read()` call as seen by the orchestrator
(collect_data.py lines 240-268): a frame dict, a falsy result
(`no_frame`), or a raised exception whose message lands in the status
string. -/
inductive ReadOutcome
  | frame (pm1 pm25 pm10 : ℕ)
  | noFrame
  | raised (msg : String)
deriving DecidableEq

/-- PMS1 row section (collect_data.py lines 240-252): a disabled
sensor writes nothing; a frame writes the three PM keys and status
"ok"; a falsy read writes only status "no_frame"; an exception writes
only status "error:<msg>". -/
def pms1Section (row : List (String × Cell)) (enabled : Bool)
    (o : ReadOutcome) : List (String × Cell) :=
  if enabled then
    match o with
    | .frame p1 p25 p10 =>
      let row := rowSet row "pm1_atm_pms1" (.num (p1 : ℚ))
      let row := rowSet row "pm25_atm_pms1" (.num (p25 : ℚ))
      let row := rowSet row "pm10_atm_pms1" (.num (p10 : ℚ))
      rowSet row "pms1_status" (.str "ok")
    | .noFrame => rowSet row "pms1_status" (.str "no_frame")
    | .raised msg => rowSet row "pms1_status" (.str ("error:" ++ msg))
  else row

/-- PMS2 row section (collect_data.py lines 256-268), the copy-pasted
twin of the PMS1 section. -/
def pms2Section (row : List (String × Cell)) (enabled : Bool)
    (o : ReadOutcome) : List (String × Cell) :=
  if enabled then
    match o with
    | .frame p1 p25 p10 =>
      let row := rowSet row "pm1_atm_pms2" (.num (p1 : ℚ))
      let row := rowSet row "pm25_atm_pms2" (.num (p25 : ℚ))
      let row := rowSet row "pm10_atm_pms2" (.num (p10 : ℚ))
      rowSet row "pms2_status" (.str "ok")
    | .noFrame => rowSet row "pms2_status" (.str "no_frame")
    | .raised msg => rowSet row "pms2_status" (.str ("error:" ++ msg))
  else row

/-- Render an optional number the way the agreement section leaves it
in the row: the value when present, the "NODATA" sentinel string
otherwise. -/
def cellOfONum : Option ℚ → Cell
  | some q => .num q
  | none => .str "NODATA"

/-- Per-tick configuration and sensor outcomes for the PMS part of the
loop body. -/
structure TickInput where
  pms1Enabled : Bool
  pms2Enabled : Bool
  o1 : ReadOutcome
  o2 : ReadOutcome

/-- PMS portion of one orchestrator tick (collect_data.py lines
238-361): the two sensor sections, then the agreement section reading
`row.get("pm25_atm_pms1")`, `row.get("pm25_atm_pms2")`,
`row.get("pms1_status", "")`, `row.get("pms2_status", "")` and writing
the four agreement fields.  Returns the row and the updated
baselines. -/
def tick (inp : TickInput) (h1 h2 : List ℚ) :
    List (String × Cell) × List ℚ × List ℚ :=
  let row : List (String × Cell) := []
  let row := pms1Section row inp.pms1Enabled inp.o1
  let row := pms2Section row inp.pms2Enabled inp.o2
  let row := rowSet row "pm25_pms_mean" (.str "NODATA")
  let row := rowSet row "pm25_pms_rpd" (.str "NODATA")
  let row := rowSet row "pm25_pair_flag" (.str "NODATA")
  let row := rowSet row "pm25_suspect_sensor" (.str "NODATA")
  let pm1 := match rowGet row "pm25_atm_pms1" with
    | some (.num q) => some q
    | _ => none
  let pm2 := match rowGet row "pm25_atm_pms2" with
    | some (.num q) => some q
    | _ => none
  let st1 := match rowGet row "pms1_status" with
    | some (.str s) => s
    | _ => ""
  let st2 := match rowGet row "pms2_status" with
    | some (.str s) => s
    | _ => ""
  let res := pairDiag st1 st2 pm1 pm2 h1 h2
  let row := rowSet row "pm25_pms_mean" (cellOfONum res.mean)
  let row := rowSet row "pm25_pms_rpd" (cellOfONum res.rpdVal)
  let row := rowSet row "pm25_pair_flag" (.str res.pairFlag)
  let row := rowSet row "pm25_suspect_sensor" (.str res.suspect)
  (row, res.hist1, res.hist2)

/-! Helper lemmas. -/

theorem rowGet_rowSet_self (r : List (String × Cell)) (k : String) (v : Cell) :
    rowGet (rowSet r k v) k = some v := by
  induction r with
  | nil => simp [rowSet, rowGet]
  | cons p rest ih =>
    obtain ⟨k2, v2⟩ := p
    by_cases h : k2 = k <;> simp [rowSet, rowGet, h, ih]

theorem rowGet_rowSet_ne (r : List (String × Cell)) (k k2 : String) (v : Cell)
    (h : k ≠ k2) : rowGet (rowSet r k v) k2 = rowGet r k2 := by
  induction r with
  | nil => simp [rowSet, rowGet, h]
  | cons p rest ih =>
    obtain ⟨k3, v3⟩ := p
    by_cases h3 : k3 = k
    · subst h3
      simp [rowSet, rowGet, h, Ne.symm h]
    · by_cases h4 : k3 = k2 <;> simp [rowSet, rowGet, h3, h4, ih, Ne.symm h]

/-! Theorems for the claims. -/

/-- C1: the spec says that when the decision ends with `pair_flag` in
{OK, LOW_PM_OK} and no suspect was assigned, `pm25_suspect_sensor` is
set to the explicit "OK" marker, never left at the absent-value
sentinel.  The code initialises the field to "NODATA"
(collect_data.py line 276) but the fix-up at lines 359-361 only fires
when the field equals the empty string, so it never fires: on an
agreeing tick (both frames PM2.5 = 10, mean 10, rpd 0) and on a
low-concentration tick (both PM2.5 = 0, mean 0 < 1) the flag is
"OK" / "LOW_PM_OK" while the suspect field stays "NODATA". -/
theorem C1_suspect_left_nodata :
    rowGet (tick ⟨true, true, .frame 5 10 15, .frame 6 10 14⟩ [] []).1
        "pm25_pair_flag" = some (.str "OK")
    ∧ rowGet (tick ⟨true, true, .frame 5 10 15, .frame 6 10 14⟩ [] []).1
        "pm25_suspect_sensor" = some (.str "NODATA")
    ∧ rowGet (tick ⟨true, true, .frame 0 0 0, .frame 0 0 0⟩ [] []).1
        "pm25_pair_flag" = some (.str "LOW_PM_OK")
    ∧ rowGet (tick ⟨true, true, .frame 0 0 0, .frame 0 0 0⟩ [] []).1
        "pm25_suspect_sensor" = some (.str "NODATA") := by
  refine ⟨?_, ?_, ?_, ?_⟩ <;>
    · simp [tick, pms1Section, pms2Section, rowSet, rowGet, pairDiag, rpd,
        median, dequeAppend, cellOfONum, MIN_PM, RPD_OK, BASELINE_N,
        List.insertionSort, List.orderedInsert]
      norm_num
      try (intro hc; exact absurd hc (by simp))

/-- C2 counterexample: the claim says every per-sensor value key is
present in the tick's record even when a particulate read fails, with a
sentinel for absent values.  On a tick where the PMS1 decoder returns
no frame (collect_data.py lines 243-249 only write `pms1_status` in
that case), the key "pm25_atm_pms1" is absent from the assembled
record. -/
theorem C2_missing_pm_key_counterexample :
    rowGet (tick ⟨true, true, .noFrame, .frame 6 10 14⟩ [] []).1
        "pm25_atm_pms1" = none
    ∧ rowGet (tick ⟨true, true, .noFrame, .frame 6 10 14⟩ [] []).1
        "pms1_status" = some (.str "no_frame") := by
  refine ⟨?_, ?_⟩ <;>
    · simp [tick, pms1Section, pms2Section, rowSet, rowGet, pairDiag, rpd,
        median, dequeAppend, cellOfONum, MIN_PM, RPD_OK, BASELINE_N,
        List.insertionSort, List.orderedInsert]

/-- C2 amended: the four agreement fields (`pm25_pms_mean`,
`pm25_pms_rpd`, `pm25_pair_flag`, `pm25_suspect_sensor`) are present in
the record of every tick, whatever the sensor outcomes, because
collect_data.py lines 273-276 write them unconditionally before the
decision; the per-sensor value keys, by contrast, are only written on a
successful read (see the counterexample). -/
theorem C2_agreement_fields_always_present (inp : TickInput) (h1 h2 : List ℚ) :
    (rowGet (tick inp h1 h2).1 "pm25_pms_mean").isSome = true
    ∧ (rowGet (tick inp h1 h2).1 "pm25_pms_rpd").isSome = true
    ∧ (rowGet (tick inp h1 h2).1 "pm25_pair_flag").isSome = true
    ∧ (rowGet (tick inp h1 h2).1 "pm25_suspect_sensor").isSome = true := by
  simp only [tick]
  refine ⟨?_, ?_, ?_, ?_⟩
  · rw [rowGet_rowSet_ne _ _ _ _ (by decide), rowGet_rowSet_ne _ _ _ _ (by decide),
      rowGet_rowSet_ne _ _ _ _ (by decide), rowGet_rowSet_self]
    rfl
  · rw [rowGet_rowSet_ne _ _ _ _ (by decide), rowGet_rowSet_ne _ _ _ _ (by decide),
      rowGet_rowSet_self]
    rfl
  · rw [rowGet_rowSet_ne _ _ _ _ (by decide), rowGet_rowSet_self]
    rfl
  · rw [rowGet_rowSet_self]
    rfl

/-- Helper: a rate-limited call returns the RATE_LIMIT marker and does
not touch the state. -/
theorem read_so2_rateLimited (now : ℚ) (bus : BusOutcome) (st : So2State)
    (h : now - st.lastRead < MIN_READ_INTERVAL_S) :
    read_so2 now bus st =
      ({ so2Default with so2_status := "error", so2_error := "RATE_LIMIT" }, st) := by
  simp [read_so2, h]

/-- Helper: a non-rate-limited call writes `now` into the timestamp,
whatever the bus outcome. -/
theorem read_so2_state_eq (now : ℚ) (bus : BusOutcome) (st : So2State)
    (h : ¬ now - st.lastRead < MIN_READ_INTERVAL_S) :
    (read_so2 now bus st).2 = ⟨now⟩ := by
  cases bus with
  | raised => simp [read_so2, h]
  | bytes data =>
    rcases h8 : read8_from_reg0 data with _ | d
    · simp [read_so2, h, h8]
    · rcases hp : parse_frame d with _ | ⟨ppm, raw, b0, b1⟩ <;>
        simp [read_so2, h, h8, hp]

/-- Helper: a non-rate-limited call never reports RATE_LIMIT. -/
theorem read_so2_error_ne_rateLimit (now : ℚ) (bus : BusOutcome) (st : So2State)
    (h : ¬ now - st.lastRead < MIN_READ_INTERVAL_S) :
    (read_so2 now bus st).1.so2_error ≠ "RATE_LIMIT" := by
  cases bus with
  | raised => simp [read_so2, h, so2Default]
  | bytes data =>
    rcases h8 : read8_from_reg0 data with _ | d
    · simp [read_so2, h, h8, so2Default]
    · rcases hp : parse_frame d with _ | ⟨ppm, raw, b0, b1⟩ <;>
        simp [read_so2, h, h8, hp, so2Default]

/-- C3 counterexample: the claim says a non-rate-limited call whose
read raises does not start a new rate-limit window.  Starting from the
initial state (timestamp 0, so2.py line 48), a call at t = 2 whose bus
read raises is not rate-limited and fails; the claim then predicts that
a call at t = 5/2 (2.5 time units after the last successful attempt,
there having been none) is not rate-limited, but the code wrote t = 2
into the timestamp before the failed read (so2.py line 134) and the
second call returns RATE_LIMIT. -/
theorem C3_failed_read_starts_new_window :
    (read_so2 2 .raised ⟨0⟩).1.so2_status = "error"
    ∧ (read_so2 2 .raised ⟨0⟩).1.so2_error = "exception"
    ∧ (read_so2 (5/2) (.bytes [0xFF, 0x86, 0, 10, 0, 1, 0, 0])
        ((read_so2 2 .raised ⟨0⟩).2)).1.so2_error = "RATE_LIMIT" := by
  have h1 : ¬ (2 : ℚ) - (0 : ℚ) < MIN_READ_INTERVAL_S := by
    norm_num [MIN_READ_INTERVAL_S]
  have hst : (read_so2 2 .raised ⟨0⟩).2 = ⟨2⟩ := read_so2_state_eq 2 .raised ⟨0⟩ h1
  refine ⟨by norm_num [read_so2, so2Default, MIN_READ_INTERVAL_S],
    by norm_num [read_so2, so2Default, MIN_READ_INTERVAL_S], ?_⟩
  rw [hst]
  have h2 : (5/2 : ℚ) - (2 : ℚ) < MIN_READ_INTERVAL_S := by
    norm_num [MIN_READ_INTERVAL_S]
  rw [read_so2_rateLimited _ _ _ h2]

/-- C3 amended: `read_so2` reports RATE_LIMIT exactly when the time
elapsed since the last non-rate-limited call (successful or not) is
below the minimum interval (1.0); every non-rate-limited call writes
its own timestamp into the rate-limit window before attempting the
read, so a failed attempt does start a new window. -/
theorem C3_rate_limit_iff (now : ℚ) (bus : BusOutcome) (st : So2State) :
    ((read_so2 now bus st).1.so2_error = "RATE_LIMIT"
      ↔ now - st.lastRead < MIN_READ_INTERVAL_S)
    ∧ (¬ now - st.lastRead < MIN_READ_INTERVAL_S
        → (read_so2 now bus st).2.lastRead = now) := by
  by_cases h : now - st.lastRead < MIN_READ_INTERVAL_S
  · rw [read_so2_rateLimited _ _ _ h]
    exact ⟨by simp [h], fun hc => absurd h hc⟩
  · exact ⟨by simp [read_so2_error_ne_rateLimit _ _ _ h, h],
      fun _ => by rw [read_so2_state_eq _ _ _ h]⟩

/-- C3 witness: at `now = 0` from the initial state the call is
rate-limited, so by the amended theorem the RATE_LIMIT marker is
returned. -/
theorem C3_rate_limit_iff_witness :
    (read_so2 0 .raised ⟨0⟩).1.so2_error = "RATE_LIMIT" :=
  (C3_rate_limit_iff 0 .raised ⟨0⟩).1.mpr (by norm_num [MIN_READ_INTERVAL_S])

/-- C9: when a second gas read happens within the minimum interval of a
first non-rate-limited read, the second call returns the RATE_LIMIT
marker and leaves the reader state exactly as the first call left it
(so2.py lines 127-131 return before the timestamp write). -/
theorem C9_second_call_rate_limited (now1 now2 : ℚ) (bus1 bus2 : BusOutcome)
    (st : So2State) (h1 : ¬ now1 - st.lastRead < MIN_READ_INTERVAL_S)
    (h2 : now2 - now1 < MIN_READ_INTERVAL_S) :
    (read_so2 now2 bus2 (read_so2 now1 bus1 st).2).1.so2_error = "RATE_LIMIT"
    ∧ (read_so2 now2 bus2 (read_so2 now1 bus1 st).2).2
        = (read_so2 now1 bus1 st).2 := by
  rw [read_so2_state_eq _ _ _ h1]
  have h2' : now2 - (So2State.mk now1).lastRead < MIN_READ_INTERVAL_S := h2
  rw [read_so2_rateLimited _ _ _ h2']
  exact ⟨rfl, rfl⟩

/-- C9 witness: first call at t = 1 from the initial state, second call
at t = 3/2. -/
theorem C9_second_call_rate_limited_witness :
    (read_so2 (3/2) .raised (read_so2 1 .raised ⟨0⟩).2).1.so2_error = "RATE_LIMIT"
    ∧ (read_so2 (3/2) .raised (read_so2 1 .raised ⟨0⟩).2).2
        = (read_so2 1 .raised ⟨0⟩).2 :=
  C9_second_call_rate_limited 1 (3/2) .raised .raised ⟨0⟩
    (by norm_num [MIN_READ_INTERVAL_S]) (by norm_num [MIN_READ_INTERVAL_S])

/-- C7: both read paths convert every transport outcome, including a
raised exception, into a plain result: the particulate reader returns
`None` when its read path raises (pms.py lines 70-75), and the gas
reader returns a record whose status is always "ok" or "error"
(so2.py lines 136-158), also when the bus raises. -/
theorem C7_reads_never_raise :
    PMSReader_read .raised = none
    ∧ (∀ now : ℚ, ∀ st : So2State,
        (read_so2 now .raised st).1.so2_status = "error")
    ∧ (∀ now : ℚ, ∀ bus : BusOutcome, ∀ st : So2State,
        (read_so2 now bus st).1.so2_status = "ok"
        ∨ (read_so2 now bus st).1.so2_status = "error") := by
  refine ⟨rfl, ?_, ?_⟩
  · intro now st
    by_cases h : now - st.lastRead < MIN_READ_INTERVAL_S
    · rw [read_so2_rateLimited _ _ _ h]
    · simp [read_so2, h, so2Default]
  · intro now bus st
    by_cases h : now - st.lastRead < MIN_READ_INTERVAL_S
    · right
      rw [read_so2_rateLimited _ _ _ h]
    · cases bus with
      | raised => right; simp [read_so2, h, so2Default]
      | bytes data =>
        rcases h8 : read8_from_reg0 data with _ | d
        · right; simp [read_so2, h, h8, so2Default]
        · rcases hp : parse_frame d with _ | ⟨ppm, raw, b0, b1⟩
          · right; simp [read_so2, h, h8, hp, so2Default]
          · left; simp [read_so2, h, h8, hp]

/-- Helper: evaluation of the frame decoder on a stream that starts
with the sync marker followed by a 30-byte body `data ++ [a, b]`
(28 data bytes, 2 checksum bytes): the result depends only on the
length-field guard and the checksum guard. -/
theorem read_frame_framed (data : List ℕ) (a b : ℕ) (h28 : data.length = 28) :
    read_frame (0x42 :: 0x4D :: (data ++ [a, b])) =
      (if beWord (data.getD 0 0) (data.getD 1 0) ≠ 28 then none
       else if (0x42 + 0x4D + data.sum) % 65536 ≠ beWord a b then none
       else some { pm1 := beWord (data.getD 8 0) (data.getD 9 0)
                   pm25 := beWord (data.getD 10 0) (data.getD 11 0)
                   pm10 := beWord (data.getD 12 0) (data.getD 13 0) }) := by
  have hsync : syncScan (0x42 :: 0x4D :: (data ++ [a, b])) = some (data ++ [a, b]) := rfl
  have hlen : (data ++ [a, b]).length = 30 := by simp [h28]
  have htake : (data ++ [a, b]).take 30 = data ++ [a, b] :=
    List.take_of_length_le (by omega)
  have htake28 : (data ++ [a, b]).take 28 = data := by
    rw [← h28]
    exact List.take_left _ _
  have hgd : ∀ i, i < 28 → (data ++ [a, b]).getD i 0 = data.getD i 0 := by
    intro i hi
    exact List.getD_append _ _ _ _ (by omega)
  have hga : (data ++ [a, b]).getD 28 0 = a := by
    rw [List.getD_append_right _ _ _ _ (by omega), h28]
    simp
  have hgb : (data ++ [a, b]).getD 29 0 = b := by
    rw [List.getD_append_right _ _ _ _ (by omega), h28]
    simp
  unfold read_frame
  rw [hsync]
  simp only [htake, hlen, ne_eq, reduceIte]
  rw [hgd 0 (by omega), hgd 1 (by omega), hga, hgb, htake28,
    hgd 8 (by omega), hgd 9 (by omega), hgd 10 (by omega), hgd 11 (by omega),
    hgd 12 (by omega), hgd 13 (by omega)]
  simp

/-- C4: on a well-formed frame (sync 0x42 0x4D, 28 data bytes `data`
with length field 28 and correct trailing checksum `[a, b]`), the
decoder returns exactly the big-endian words at word indices 3, 4, 5
(byte offsets 8-13 of the body) as pm1/pm25/pm10; and altering either
single checksum byte makes decoding fail, the length guard still
passing while the checksum comparison is the guard that fails. -/
theorem C4_decode_roundtrip_and_checksum (data : List ℕ) (a b : ℕ)
    (hdata : ∀ x ∈ data, x < 256) (ha : a < 256) (hb : b < 256)
    (h28 : data.length = 28)
    (hfield : beWord (data.getD 0 0) (data.getD 1 0) = 28)
    (hck : (0x42 + 0x4D + data.sum) % 65536 = beWord a b) :
    read_frame (0x42 :: 0x4D :: (data ++ [a, b])) =
      some { pm1 := beWord (data.getD 8 0) (data.getD 9 0)
             pm25 := beWord (data.getD 10 0) (data.getD 11 0)
             pm10 := beWord (data.getD 12 0) (data.getD 13 0) }
    ∧ (∀ a2, a2 < 256 → a2 ≠ a →
        read_frame (0x42 :: 0x4D :: (data ++ [a2, b])) = none
        ∧ (0x42 + 0x4D + data.sum) % 65536 ≠ beWord a2 b)
    ∧ (∀ b2, b2 < 256 → b2 ≠ b →
        read_frame (0x42 :: 0x4D :: (data ++ [a, b2])) = none
        ∧ (0x42 + 0x4D + data.sum) % 65536 ≠ beWord a b2) := by
  refine ⟨?_, ?_, ?_⟩
  · rw [read_frame_framed _ _ _ h28, if_neg (not_not_intro hfield),
      if_neg (not_not_intro hck)]
  · intro a2 _ hne
    have hmism : (0x42 + 0x4D + data.sum) % 65536 ≠ beWord a2 b := by
      rw [hck]
      unfold beWord
      omega
    refine ⟨?_, hmism⟩
    rw [read_frame_framed _ _ _ h28, if_neg (not_not_intro hfield), if_pos hmism]
  · intro b2 _ hne
    have hmism : (0x42 + 0x4D + data.sum) % 65536 ≠ beWord a b2 := by
      rw [hck]
      unfold beWord
      omega
    refine ⟨?_, hmism⟩
    rw [read_frame_framed _ _ _ h28, if_neg (not_not_intro hfield), if_pos hmism]

/-- C4 witness: a concrete valid frame carrying pm1 = 1, pm25 = 2,
pm10 = 3 (data-byte sum 34, checksum 0x42 + 0x4D + 34 = 177) decodes to
those values, and the same frame with its low checksum byte changed
from 177 to 176 fails to decode. -/
theorem C4_decode_roundtrip_and_checksum_witness :
    read_frame (0x42 :: 0x4D ::
      ([0, 28, 0, 0, 0, 0, 0, 0, 0, 1, 0, 2, 0, 3, 0, 0, 0, 0, 0, 0, 0, 0, 0, 0, 0, 0, 0, 0]
        ++ [0, 177])) = some { pm1 := 1, pm25 := 2, pm10 := 3 }
    ∧ read_frame (0x42 :: 0x4D ::
      ([0, 28, 0, 0, 0, 0, 0, 0, 0, 1, 0, 2, 0, 3, 0, 0, 0, 0, 0, 0, 0, 0, 0, 0, 0, 0, 0, 0]
        ++ [0, 176])) = none := by
  have h := C4_decode_roundtrip_and_checksum
    [0, 28, 0, 0, 0, 0, 0, 0, 0, 1, 0, 2, 0, 3, 0, 0, 0, 0, 0, 0, 0, 0, 0, 0, 0, 0, 0, 0]
    0 177 (by decide) (by decide) (by decide) (by decide) (by decide) (by decide)
  exact ⟨h.1, (h.2.2 176 (by decide) (by decide)).1⟩

/-- Deviation of a value from an optional baseline median, as described
in spec section 4.3 step 4: `|v - median| / max(median, MIN_PM)`, and 0
when the baseline has no median.  Used in theorem statements to compare
the code's attribution path against the spec's formula. -/
def devFrom (b : Option ℚ) (v : ℚ) : ℚ :=
  match b with
  | some m => |v - m| / max m MIN_PM
  | none => 0

/-- Fault attribution as described in spec section 4.3 step 4: suspect
sensor 1 when `dev1 > 1.5 * dev2`, sensor 2 when `dev2 > 1.5 * dev1`,
otherwise both. -/
def attribution (b1 b2 : Option ℚ) (v1 v2 : ℚ) : String :=
  if devFrom b1 v1 > devFrom b2 v2 * (3/2 : ℚ) then "PMS1"
  else if devFrom b2 v2 > devFrom b1 v1 * (3/2 : ℚ) then "PMS2"
  else "BOTH"

/-- Helper: the value just appended to a bounded deque is in it. -/
theorem mem_dequeAppend_self (h : List ℚ) (v : ℚ) : v ∈ dequeAppend h v := by
  unfold dequeAppend
  rw [List.drop_append_of_le_length (by simp [BASELINE_N])]
  simp

/-- Helper: the sensor-1 baseline leaving the pair-diagnostic section
is the input baseline, with the tick's PM2.5 value appended exactly
when the status is "ok" and the value is present (collect_data.py lines
287-291). -/
theorem pairDiag_hist1_eq (st1 st2 : String) (pm1 pm2 : Option ℚ) (h1 h2 : List ℚ) :
    (pairDiag st1 st2 pm1 pm2 h1 h2).hist1 =
      (match pm1 with
       | some v => if st1 = "ok" then dequeAppend h1 v else h1
       | none => h1) := by
  simp only [pairDiag]
  repeat' split <;> try rfl

/-- Helper: same as `pairDiag_hist1_eq` for the sensor-2 baseline
(collect_data.py lines 293-297). -/
theorem pairDiag_hist2_eq (st1 st2 : String) (pm1 pm2 : Option ℚ) (h1 h2 : List ℚ) :
    (pairDiag st1 st2 pm1 pm2 h1 h2).hist2 =
      (match pm2 with
       | some v => if st2 = "ok" then dequeAppend h2 v else h2
       | none => h2) := by
  simp only [pairDiag]
  repeat' split <;> try rfl

/-- Helper: a bounded-deque append never produces more than
`BASELINE_N` entries, whatever the input length. -/
theorem length_dequeAppend_le (h : List ℚ) (v : ℚ) :
    (dequeAppend h v).length ≤ BASELINE_N := by
  unfold dequeAppend
  simp only [List.length_drop, List.length_append, List.length_singleton, BASELINE_N]
  omega

/-- Helper: appending to a full deque evicts exactly the oldest
entry. -/
theorem dequeAppend_full (h : List ℚ) (v : ℚ) (hfull : h.length = BASELINE_N) :
    dequeAppend h v = h.tail ++ [v] := by
  unfold dequeAppend
  simp only [List.length_append, List.length_singleton, hfull, BASELINE_N]
  rw [show 30 + 1 - 30 = 1 from rfl,
    List.drop_append_of_le_length (by rw [hfull]; decide), List.drop_one]

/-- C6: with both sensors "ok" and both PM2.5 values present, a mean
below MIN_PM (1.0) yields pair flag LOW_PM_OK whatever the relative
percent difference would be, and a mean at least MIN_PM with
rpd = |v1 - v2| / mean at most RPD_OK (0.25) yields pair flag OK
(collect_data.py lines 310-349). -/
theorem C6_low_pm_and_agreement (v1 v2 : ℚ) (h1 h2 : List ℚ) :
    ((1/2 : ℚ) * (v1 + v2) < MIN_PM →
      (pairDiag "ok" "ok" (some v1) (some v2) h1 h2).pairFlag = "LOW_PM_OK")
    ∧ (MIN_PM ≤ (1/2 : ℚ) * (v1 + v2) →
        |v1 - v2| / ((1/2 : ℚ) * (v1 + v2)) ≤ RPD_OK →
        (pairDiag "ok" "ok" (some v1) (some v2) h1 h2).pairFlag = "OK") := by
  constructor
  · intro hlt
    simp only [pairDiag]
    norm_num
    rw [if_neg (not_le.mpr hlt)]
  · intro hge hrpd
    have hpos : ¬ ((1/2 : ℚ) * (v1 + v2) ≤ 0) := by
      simp only [MIN_PM] at hge
      intro hc
      linarith
    simp only [pairDiag, rpd]
    norm_num
    rw [if_pos hge, if_neg hpos]
    rw [one_div] at hrpd
    simp [hrpd]

/-- C6 witness: v1 = 0.3, v2 = 0.4 (mean 0.35 < 1) gives LOW_PM_OK;
v1 = 10, v2 = 10.5 (mean 10.25, rpd = 2/41 ≤ 0.25) gives OK. -/
theorem C6_low_pm_and_agreement_witness :
    (pairDiag "ok" "ok" (some (3/10)) (some (2/5)) [] []).pairFlag = "LOW_PM_OK"
    ∧ (pairDiag "ok" "ok" (some 10) (some (21/2)) [] []).pairFlag = "OK" :=
  ⟨(C6_low_pm_and_agreement (3/10) (2/5) [] []).1 (by norm_num [MIN_PM]),
   (C6_low_pm_and_agreement 10 (21/2) [] []).2 (by norm_num [MIN_PM])
     (by rw [abs_of_nonpos (by norm_num)]; norm_num [RPD_OK])⟩

/-- C5: with both sensors "ok", both PM2.5 values present, mean at
least MIN_PM and rpd above RPD_OK, the pair flag is MISMATCH and the
suspect is determined by the deviation of each value from its sensor's
rolling-baseline median per the spec formula (`attribution`), the
baselines being the ones updated this tick (collect_data.py lines
322-347). -/
theorem C5_mismatch_attribution (v1 v2 : ℚ) (h1 h2 : List ℚ)
    (hge : MIN_PM ≤ (1/2 : ℚ) * (v1 + v2))
    (hrpd : RPD_OK < |v1 - v2| / ((1/2 : ℚ) * (v1 + v2))) :
    (pairDiag "ok" "ok" (some v1) (some v2) h1 h2).pairFlag = "MISMATCH"
    ∧ (pairDiag "ok" "ok" (some v1) (some v2) h1 h2).suspect =
        attribution (median (dequeAppend h1 v1)) (median (dequeAppend h2 v2)) v1 v2 := by
  have hpos : ¬ ((1/2 : ℚ) * (v1 + v2) ≤ 0) := by
    simp only [MIN_PM] at hge
    intro hc
    linarith
  have hnot : ¬ (|v1 - v2| / ((1/2 : ℚ) * (v1 + v2)) ≤ RPD_OK) := not_le.mpr hrpd
  rw [one_div] at hnot
  constructor <;>
  · simp only [pairDiag, rpd]
    norm_num
    rw [if_pos hge, if_neg hpos]
    simp [hnot, attribution, devFrom]

/-- C5 witness: v1 = 10, v2 = 16 (mean 13, rpd = 6/13 > 0.25) with
pre-tick baselines [10] and [10, 10, 10], so both post-append medians
are 10: dev1 = 0, dev2 = 0.6, hence MISMATCH with suspect PMS2, the
spec's worked example. -/
theorem C5_mismatch_attribution_witness :
    (pairDiag "ok" "ok" (some 10) (some 16) [10] [10, 10, 10]).pairFlag = "MISMATCH"
    ∧ (pairDiag "ok" "ok" (some 10) (some 16) [10] [10, 10, 10]).suspect = "PMS2" := by
  have h := C5_mismatch_attribution 10 16 [10] [10, 10, 10]
    (by norm_num [MIN_PM]) (by norm_num [RPD_OK])
  refine ⟨h.1, h.2.trans ?_⟩
  norm_num [attribution, devFrom, median, dequeAppend, BASELINE_N, MIN_PM,
    List.insertionSort, List.orderedInsert]

/-- C8: rolling-baseline invariants (collect_data.py lines 126-127 and
287-297): a baseline of length at most 30 stays at most 30 after the
tick; the tick appends the PM2.5 value to a sensor's baseline exactly
when that sensor's status is "ok" and the value is present; and
appending to a full baseline evicts the oldest entry, so subsequent
medians are computed over `tail ++ [v]`. -/
theorem C8_baseline_invariants (st1 st2 : String) (pm1 pm2 : Option ℚ)
    (h1 h2 : List ℚ) (v : ℚ) :
    (h1.length ≤ BASELINE_N →
      (pairDiag st1 st2 pm1 pm2 h1 h2).hist1.length ≤ BASELINE_N)
    ∧ (h2.length ≤ BASELINE_N →
        (pairDiag st1 st2 pm1 pm2 h1 h2).hist2.length ≤ BASELINE_N)
    ∧ (st1 = "ok" → pm1 = some v →
        (pairDiag st1 st2 pm1 pm2 h1 h2).hist1 = dequeAppend h1 v)
    ∧ (st2 = "ok" → pm2 = some v →
        (pairDiag st1 st2 pm1 pm2 h1 h2).hist2 = dequeAppend h2 v)
    ∧ (st1 ≠ "ok" ∨ pm1 = none → (pairDiag st1 st2 pm1 pm2 h1 h2).hist1 = h1)
    ∧ (st2 ≠ "ok" ∨ pm2 = none → (pairDiag st1 st2 pm1 pm2 h1 h2).hist2 = h2)
    ∧ (h1.length = BASELINE_N → dequeAppend h1 v = h1.tail ++ [v]) := by
  refine ⟨?_, ?_, ?_, ?_, ?_, ?_, fun hf => dequeAppend_full h1 v hf⟩
  · intro hlen
    rw [pairDiag_hist1_eq]
    rcases pm1 with _ | w
    · exact hlen
    · by_cases hs : st1 = "ok" <;> simp [hs, length_dequeAppend_le, hlen]
  · intro hlen
    rw [pairDiag_hist2_eq]
    rcases pm2 with _ | w
    · exact hlen
    · by_cases hs : st2 = "ok" <;> simp [hs, length_dequeAppend_le, hlen]
  · intro hs hpm
    rw [pairDiag_hist1_eq, hpm]
    simp [hs]
  · intro hs hpm
    rw [pairDiag_hist2_eq, hpm]
    simp [hs]
  · intro hor
    rw [pairDiag_hist1_eq]
    rcases hor with hs | hpm
    · rcases pm1 with _ | w
      · rfl
      · simp [hs]
    · rw [hpm]
  · intro hor
    rw [pairDiag_hist2_eq]
    rcases hor with hs | hpm
    · rcases pm2 with _ | w
      · rfl
      · simp [hs]
    · rw [hpm]

/-- C8 witness: a full 30-entry baseline gets the append-with-eviction
treatment on an "ok" tick; a "no_frame" tick leaves the baseline
untouched; the bound is preserved; and the evicted form is
`tail ++ [v]`. -/
theorem C8_baseline_invariants_witness :
    (pairDiag "ok" "ok" (some 7) (some 7) (List.replicate 30 5) []).hist1
      = dequeAppend (List.replicate 30 5) 7
    ∧ (pairDiag "no_frame" "ok" (some 7) (some 7) [] []).hist1 = []
    ∧ (pairDiag "ok" "ok" (some 7) (some 7) (List.replicate 30 5) []).hist1.length
        ≤ BASELINE_N
    ∧ dequeAppend (List.replicate 30 5) 7 = (List.replicate 30 (5 : ℚ)).tail ++ [7] :=
  ⟨(C8_baseline_invariants "ok" "ok" (some 7) (some 7)
      (List.replicate 30 5) [] 7).2.2.1 rfl rfl,
   (C8_baseline_invariants "no_frame" "ok" (some 7) (some 7) [] [] 7).2.2.2.2.1
     (Or.inl (by decide)),
   (C8_baseline_invariants "ok" "ok" (some 7) (some 7)
      (List.replicate 30 5) [] 7).1 (by simp [BASELINE_N]),
   (C8_baseline_invariants "ok" "ok" (some 7) (some 7)
      (List.replicate 30 5) [] 7).2.2.2.2.2.2 (by simp [BASELINE_N])⟩

/-- C10: when fault attribution runs (both "ok", both values present,
mean ≥ MIN_PM, rpd > RPD_OK), the baselines carried out of the tick are
the input baselines with the current values already appended
(collect_data.py lines 287-297 run before lines 330-337), the current
readings are members of those baselines, and the suspect equals the
spec's attribution formula evaluated on the medians of those updated
baselines — i.e., each sensor's current reading participates in its own
baseline median at attribution time. -/
theorem C10_attribution_uses_updated_baselines (v1 v2 : ℚ) (h1 h2 : List ℚ)
    (hge : MIN_PM ≤ (1/2 : ℚ) * (v1 + v2))
    (hrpd : RPD_OK < |v1 - v2| / ((1/2 : ℚ) * (v1 + v2))) :
    (pairDiag "ok" "ok" (some v1) (some v2) h1 h2).hist1 = dequeAppend h1 v1
    ∧ (pairDiag "ok" "ok" (some v1) (some v2) h1 h2).hist2 = dequeAppend h2 v2
    ∧ v1 ∈ (pairDiag "ok" "ok" (some v1) (some v2) h1 h2).hist1
    ∧ v2 ∈ (pairDiag "ok" "ok" (some v1) (some v2) h1 h2).hist2
    ∧ (pairDiag "ok" "ok" (some v1) (some v2) h1 h2).suspect =
        attribution (median (pairDiag "ok" "ok" (some v1) (some v2) h1 h2).hist1)
          (median (pairDiag "ok" "ok" (some v1) (some v2) h1 h2).hist2) v1 v2 := by
  have hpos : ¬ ((1/2 : ℚ) * (v1 + v2) ≤ 0) := by
    simp only [MIN_PM] at hge
    intro hc
    linarith
  have hnot : ¬ (|v1 - v2| / ((1/2 : ℚ) * (v1 + v2)) ≤ RPD_OK) := not_le.mpr hrpd
  rw [one_div] at hnot
  refine ⟨?_, ?_, ?_, ?_, ?_⟩ <;>
  · simp only [pairDiag, rpd]
    norm_num
    rw [if_pos hge, if_neg hpos]
    simp [hnot, attribution, devFrom, mem_dequeAppend_self]

/-- C10 witness: at v1 = 10, v2 = 16 with baselines [10] and
[10, 10, 10], the current readings are in the baselines used for
attribution. -/
theorem C10_attribution_uses_updated_baselines_witness :
    (10 : ℚ) ∈ (pairDiag "ok" "ok" (some 10) (some 16) [10] [10, 10, 10]).hist1
    ∧ (16 : ℚ) ∈ (pairDiag "ok" "ok" (some 10) (some 16) [10] [10, 10, 10]).hist2 :=
  ⟨(C10_attribution_uses_updated_baselines 10 16 [10] [10, 10, 10]
      (by norm_num [MIN_PM]) (by norm_num [RPD_OK])).2.2.1,
   (C10_attribution_uses_updated_baselines 10 16 [10] [10, 10, 10]
      (by norm_num [MIN_PM]) (by norm_num [RPD_OK])).2.2.2.1⟩

end CommunitySensor
